import Mathlib

/-!
Shallow embedding of the trkr step-sequencer playback engine
(src/trkr-blessed.py, with should_trigger identical in src/trkr.py).

Pure data (phrases, steps, counters) is embedded as Lean values; the
playback clock loop is embedded as a step function on an explicit state:
one application of tick_once corresponds to one elapsed step interval of
the Python while-loop (the real-time sleep/poll is abstracted away).
Randomness is determinized: the value returned by random.random() is an
explicit rational parameter in [0,1).
-/

namespace Trkr

set_option maxRecDepth 4000000

/-- Step of a phrase, mirroring dataclass PhraseStep (note, velocity,
probability, condition with the same defaults). -/
structure PhraseStep where
  note : Option ℕ
  velocity : ℤ
  probability : ℤ
  condition : String
deriving DecidableEq

/-- Default PhraseStep() as constructed by the dataclass defaults. -/
def defaultStep : PhraseStep :=
  { note := none, velocity := 100, probability := 100, condition := "1/1" }

/-- Phrase, mirroring dataclass Phrase: a length field and a step list. -/
structure Phrase where
  length : ℕ
  steps : List PhraseStep
deriving DecidableEq

/-- Default Phrase(): 16 default steps, length 16. -/
def defaultPhrase : Phrase :=
  { length := 16, steps := List.replicate 16 defaultStep }

/-- The condition_counters dict, as an association list from string keys to
Python ints.  Absent keys read as 0, matching dict.get(key, 0). -/
abbrev Counters := List (String × ℤ)

/-- Dictionary read with default 0: condition_counters.get(key, 0). -/
def cGet : Counters → String → ℤ
  | [], _ => 0
  | p :: rest, k => if p.fst == k then p.snd else cGet rest k

/-- Dictionary write: condition_counters[key] = v (overwrite or insert). -/
def cSet : Counters → String → ℤ → Counters
  | [], k, v => [(k, v)]
  | p :: rest, k, v => if p.fst == k then (k, v) :: rest else p :: cSet rest k v

/-- Split of a character list at each occurrence of the slash, the
behavior of condition.split("/") on the sequencer's condition strings. -/
def splitSlash : List Char → List Char → List (List Char)
  | [], acc => [acc.reverse]
  | c :: rest, acc =>
    if c = '/' then acc.reverse :: splitSlash rest [] else splitSlash rest (c :: acc)

/-- Decimal value of a digit sequence, the behavior of int() on the digit
substrings of a well-formed condition string. -/
def digitsToNat (l : List Char) : ℕ :=
  l.foldl (fun a c => a * 10 + (c.toNat - 48)) 0

/-- Parse of map(int, condition.split("/")): the two integers of a "k/n"
condition string.  Malformed strings (which raise in Python and cannot be
produced through condition_options) are totalized to 0 components. -/
def parseCondition (c : String) : ℤ × ℤ :=
  match splitSlash c.data [] with
  | [a, b] => ((digitsToNat a : ℕ), (digitsToNat b : ℕ))
  | _ => (0, 0)

/-- should_trigger (identical in trkr-blessed.py and trkr.py), with the
random.random() draw passed explicitly.  Returns the fire decision and
the updated condition_counters. -/
def should_trigger (draw : ℚ) (step : PhraseStep) (step_key : String)
    (counters : Counters) : Bool × Counters :=
  if draw * 100 > (step.probability : ℚ) then (false, counters)
  else if step.condition = "1/1" then (true, counters)
  else
    let nd := parseCondition step.condition
    let key := step_key ++ "_" ++ step.condition
    let count : ℤ := cGet counters key + 1
    (decide (count % nd.snd = nd.fst - 1), cSet counters key (count % nd.snd))

/-- Fueled embedding of the growth while-loop of _set_phrase_length:
while len(steps) < target, append a copy of first_page.  The fuel only
bounds iterations; with a nonempty first page, fuel equal to the target
is always sufficient (each pass appends at least one step). -/
def growAux : ℕ → List PhraseStep → ℕ → List PhraseStep → List PhraseStep
  | 0, _, _, steps => steps
  | fuel + 1, first_page, target, steps =>
    if steps.length < target then growAux fuel first_page target (steps ++ first_page)
    else steps

/-- The _set_phrase_length method: no-op on equal length, tile copies of
the first 16 steps when growing, truncate when shrinking, then set the
length field to the new length. -/
def set_phrase_length (p : Phrase) (new_length : ℕ) : Phrase :=
  if new_length = p.length then p
  else if new_length > p.length then
    { length := new_length,
      steps := growAux new_length (p.steps.take 16) new_length p.steps }
  else
    { length := new_length, steps := p.steps.take new_length }

/-- Safety clamp of playback_loop: if step_idx >= phrase.length, replace
it by step_idx % phrase.length before use. -/
def clampIndex (cursor L : ℕ) : ℕ :=
  if cursor ≥ L then cursor % L else cursor

/-- The shared mutable state of the TRKR object (the fields the playback
engine reads or writes). -/
structure TrackerState where
  phrases : ℕ → Phrase
  arrangement : ℕ → ℕ → Option ℕ
  current_notes : List (Option ℕ)
  bar_tick : ℕ
  playing : Bool
  play_mode : String
  current_row : ℕ
  current_steps : List ℕ
  next_row : Option ℕ
  pending_stop : Bool
  condition_counters : Counters
  tempo : ℤ
  stop_playback : Bool

/-- Initial state as produced by TRKR.__init__. -/
def initState : TrackerState :=
  { phrases := fun _ => defaultPhrase
    arrangement := fun _ _ => none
    current_notes := List.replicate 8 none
    bar_tick := 0
    playing := false
    play_mode := "pattern"
    current_row := 0
    current_steps := List.replicate 8 0
    next_row := none
    pending_stop := false
    condition_counters := []
    tempo := 120
    stop_playback := false }

/-- The _get_max_phrase_length method: fold max over the lengths of the
phrases assigned to a row, starting from 16. -/
def get_max_phrase_length (st : TrackerState) (row : ℕ) : ℕ :=
  (List.range 8).foldl
    (fun m ch =>
      match st.arrangement row ch with
      | some pn => max m (st.phrases pn).length
      | none => m)
    16

/-- all(p is None for p in arrangement[row]). -/
def row_empty (st : TrackerState) (row : ℕ) : Bool :=
  (List.range 8).all (fun ch => (st.arrangement row ch).isNone)

/-- One channel of the per-tick loop of playback_loop: look up the
assigned phrase, clamp the cursor, read the step, evaluate the trigger
when the step has a note (recording the note on fire; the MIDI send is an
external effect), then advance the cursor modulo the phrase length.  The
in-place write of the clamped cursor in the source is subsumed by the
unconditional advance write to the same slot at the end of the block. -/
def process_channel (draw : ℚ) (st : TrackerState) (channel : ℕ) : TrackerState :=
  match st.arrangement st.current_row channel with
  | none => st
  | some phrase_num =>
    let phrase := st.phrases phrase_num
    let step_idx := clampIndex (st.current_steps.getD channel 0) phrase.length
    let step := (phrase.steps.get? step_idx).getD defaultStep
    let trig : Bool × Counters :=
      match step.note with
      | none => (false, st.condition_counters)
      | some _ =>
        should_trigger draw step
          (toString st.current_row ++ "_" ++ toString channel ++ "_" ++ toString step_idx)
          st.condition_counters
    let notes :=
      match step.note with
      | some n => if trig.fst then st.current_notes.set channel (some n) else st.current_notes
      | none => st.current_notes
    { st with
      condition_counters := trig.snd
      current_notes := notes
      current_steps := st.current_steps.set channel ((step_idx + 1) % phrase.length) }

/-- The channel loop: for channel in range(8). -/
def run_channels (draws : ℕ → ℚ) (st : TrackerState) : TrackerState :=
  (List.range 8).foldl (fun s ch => process_channel (draws ch) s ch) st

/-- State of one running playback_loop invocation: the shared tracker
state plus the loop-local variables step_time and max_length. -/
structure LoopCtx where
  st : TrackerState
  max_length : ℕ
  step_time : ℚ

/-- Song-mode row advance at a bar boundary: go to the next row unless it
is past index 63 or entirely empty, in which case wrap to row 0. -/
def songAdvance (st : TrackerState) : TrackerState :=
  if decide (64 ≤ st.current_row + 1) || row_empty st (st.current_row + 1) then
    { st with current_row := 0 }
  else { st with current_row := st.current_row + 1 }

/-- Bar-boundary resolution of playback_loop, applied to the state after
bar_tick and the cursors have been reset.  Returns the new loop context
and whether the loop breaks. -/
def boundary_resolve (c : LoopCtx) (st : TrackerState) : LoopCtx × Bool :=
  if st.pending_stop && (st.play_mode == "pattern") then
    ({ c with st := { st with playing := false, pending_stop := false } }, true)
  else
    match st.next_row with
    | some r =>
      ({ c with
         st := { st with current_row := r, next_row := none }
         max_length :=
           get_max_phrase_length { st with current_row := r, next_row := none } r },
       false)
    | none =>
      if st.play_mode == "song" then
        ({ c with
           st := songAdvance st
           max_length := get_max_phrase_length (songAdvance st) (songAdvance st).current_row },
         false)
      else ({ c with st := st }, false)

/-- One elapsed step interval of playback_loop: process all channels,
increment bar_tick, and on reaching max_length reset bar_tick and the
cursors and resolve the bar boundary. -/
def loop_body (draws : ℕ → ℚ) (c : LoopCtx) : LoopCtx × Bool :=
  if c.max_length ≤ (run_channels draws c.st).bar_tick + 1 then
    boundary_resolve c
      { run_channels draws c.st with
        bar_tick := 0, current_steps := List.replicate 8 0 }
  else
    ({ c with
       st := { run_channels draws c.st with
               bar_tick := (run_channels draws c.st).bar_tick + 1 } },
     false)

/-- Outcome of one scheduler step: the loop either keeps running or has
exited (guard failure or break). -/
inductive TickResult
  | cont
  | exited
deriving DecidableEq

/-- One iteration of the while-loop of playback_loop at an elapsed step
interval: exit if stop_playback is set (the loop guard), otherwise run
the body; on loop exit the trailing assignment playing = False runs. -/
def tick_once (draws : ℕ → ℚ) (c : LoopCtx) : LoopCtx × TickResult :=
  if c.st.stop_playback then
    ({ c with st := { c.st with playing := false } }, TickResult.exited)
  else if (loop_body draws c).snd then
    ({ (loop_body draws c).fst with
       st := { (loop_body draws c).fst.st with playing := false } },
     TickResult.exited)
  else ((loop_body draws c).fst, TickResult.cont)

/-- Iterate tick_once n times (the loop keeps its state after exit). -/
def tick_n (draws : ℕ → ℚ) : ℕ → LoopCtx → LoopCtx
  | 0, c => c
  | n + 1, c => tick_n draws n (tick_once draws c).fst

/-- The start_playback method (thread spawn is the start of the loop
context, see start_loop). -/
def start_playback (st : TrackerState) (row : ℕ) : TrackerState :=
  if st.playing then { st with next_row := some row }
  else
    { st with
      current_row := row
      current_steps := List.replicate 8 0
      bar_tick := 0
      playing := true
      pending_stop := false
      stop_playback := false }

/-- Initialization of playback_loop before its while-loop: compute
step_time from the tempo, zero bar_tick, and cache max_length for the
current row. -/
def start_loop (st : TrackerState) : LoopCtx :=
  { st := { st with bar_tick := 0 }
    max_length := get_max_phrase_length st st.current_row
    step_time := 60 / (st.tempo : ℚ) / 4 }

/-- The stop_playback_func method: deferred stop in pattern mode,
immediate stop flag plus bounded join in song mode (the join itself has
no state effect). -/
def stop_playback_func (st : TrackerState) : TrackerState :=
  if st.play_mode == "pattern" then { st with pending_stop := true }
  else { st with playing := false, stop_playback := true }

/-- The toggle_play_mode method: stop (mode-dependently) if playing,
join boundedly, flip the mode, clear flags. -/
def toggle_play_mode (st : TrackerState) : TrackerState :=
  let st1 := if st.playing then stop_playback_func st else st
  { st1 with
    play_mode := if st1.play_mode == "pattern" then "song" else "pattern"
    playing := false
    pending_stop := false
    next_row := none }

/-- The final clamp of get_tempo_input: max(40, min(300, n)). -/
def clamp_tempo (n : ℤ) : ℤ := max 40 (min 300 n)

/-- Foreground tempo assignment through the tempo prompt. -/
def set_tempo (st : TrackerState) (n : ℤ) : TrackerState :=
  { st with tempo := clamp_tempo n }

/-- Foreground phrase resize applied to the shared state. -/
def resize_phrase (st : TrackerState) (pn : ℕ) (new_length : ℕ) : TrackerState :=
  { st with
    phrases := fun i =>
      if i = pn then set_phrase_length (st.phrases i) new_length else st.phrases i }

/-- Counters after t successive should_trigger attempts on the same step
and key, starting from an empty table, with the same draw each time. -/
def attempts_counters (draw : ℚ) (step : PhraseStep) (key : String) : ℕ → Counters
  | 0 => []
  | t + 1 => (should_trigger draw step key (attempts_counters draw step key t)).snd

/-- Fire decision of the (t+1)-th attempt (0-based t) in the sequence of
attempts_counters. -/
def attempt_fires (draw : ℚ) (step : PhraseStep) (key : String) (t : ℕ) : Bool :=
  (should_trigger draw step key (attempts_counters draw step key t)).fst

/-- k literal copies of a page, appended in order: the block structure
produced by the growth loop of _set_phrase_length. -/
def tile : ℕ → List PhraseStep → List PhraseStep
  | 0, _ => []
  | k + 1, fp => fp ++ tile k fp

/-- A step carrying a note with the "2/4" condition (probability 100). -/
def step24 : PhraseStep := { defaultStep with note := some 60, condition := "2/4" }

/-- Degenerate draw source: random.random() always returning 0. -/
def zeroDraws : ℕ → ℚ := fun _ => 0

/-- A 64-step phrase of default (rest) steps. -/
def phrase64 : Phrase := { length := 64, steps := List.replicate 64 defaultStep }

/-- Arrangement with row 0 mixing a 16-step phrase (channel 0) and a
64-step phrase (channel 1). -/
def mixState : TrackerState :=
  { initState with
    arrangement := fun r ch =>
      if r = 0 ∧ ch = 0 then some 0 else if r = 0 ∧ ch = 1 then some 1 else none
    phrases := fun i => if i = 1 then phrase64 else defaultPhrase }

/-- Loop context right after starting playback of mixState at row 0. -/
def mixCtx : LoopCtx := start_loop (start_playback mixState 0)

/-- Arrangement with only a 16-step phrase on row 0 channel 0. -/
def c4State : TrackerState :=
  { initState with arrangement := fun r ch => if r = 0 ∧ ch = 0 then some 0 else none }

/-- Loop context after starting playback of c4State at row 0 (cached
max_length is 16). -/
def c4Ctx : LoopCtx := start_loop (start_playback c4State 0)

/-- The same running loop after the foreground resizes phrase 0 to 64
steps mid-bar: the shared state changes, the cached max_length does not. -/
def c4Ctx2 : LoopCtx := { c4Ctx with st := resize_phrase c4Ctx.st 0 64 }

/-- A state playing in pattern mode, mid-bar. -/
def c3State : TrackerState := { initState with playing := true, bar_tick := 3 }

/-- Loop context of a playback started at the default tempo of 120. -/
def c5Ctx : LoopCtx := start_loop { initState with playing := true }

/-- The same running loop after the foreground sets the tempo to 240:
the tempo field changes, the loop-local step_time does not. -/
def c5Ctx2 : LoopCtx := { c5Ctx with st := set_tempo c5Ctx.st 240 }

/-! Helper lemmas about the counter table. -/

lemma cGet_cSet_self (cs : Counters) (k : String) (v : ℤ) :
    cGet (cSet cs k v) k = v := by
  induction cs with
  | nil => simp [cGet, cSet]
  | cons p rest ih =>
    by_cases h : p.fst = k
    · simp [cGet, cSet, h]
    · have hb : (p.fst == k) = false := by simp [h]
      simp [cGet, cSet, hb, ih]

lemma cGet_cSet_ne (cs : Counters) (k k2 : String) (v : ℤ) (h : k2 ≠ k) :
    cGet (cSet cs k v) k2 = cGet cs k2 := by
  have hne : ¬ k = k2 := fun e => h e.symm
  induction cs with
  | nil =>
    have hb : (k == k2) = false := by simp [hne]
    simp [cGet, cSet, hb]
  | cons p rest ih =>
    by_cases hp : p.fst = k
    · have hb : (k == k2) = false := by simp [hne]
      have hp2 : (p.fst == k2) = false := by simp [hp, hne]
      simp [cGet, cSet, hp, hb, hp2]
    · have hpb : (p.fst == k) = false := by simp [hp]
      simp [cGet, cSet, hpb, ih]

/-! Helper lemmas unfolding should_trigger on each of its three paths. -/

lemma should_trigger_of_gate (r : ℚ) (step : PhraseStep) (key : String)
    (cs : Counters) (h : r * 100 > (step.probability : ℚ)) :
    should_trigger r step key cs = (false, cs) := by
  unfold should_trigger
  rw [if_pos h]

lemma should_trigger_of_one (r : ℚ) (step : PhraseStep) (key : String)
    (cs : Counters) (hpass : ¬ r * 100 > (step.probability : ℚ))
    (hc : step.condition = "1/1") :
    should_trigger r step key cs = (true, cs) := by
  unfold should_trigger
  rw [if_neg hpass, if_pos hc]

lemma should_trigger_of_cond (r : ℚ) (step : PhraseStep) (key : String)
    (cs : Counters) (hpass : ¬ r * 100 > (step.probability : ℚ))
    (hc : step.condition ≠ "1/1") :
    should_trigger r step key cs =
      (decide ((cGet cs (key ++ "_" ++ step.condition) + 1) %
          (parseCondition step.condition).snd = (parseCondition step.condition).fst - 1),
       cSet cs (key ++ "_" ++ step.condition)
         ((cGet cs (key ++ "_" ++ step.condition) + 1) %
           (parseCondition step.condition).snd)) := by
  unfold should_trigger
  rw [if_neg hpass, if_neg hc]

/-! Helper lemmas about the rotating counter across repeated attempts. -/

lemma attempts_counters_value (r : ℚ) (step : PhraseStep) (key : String)
    (k n : ℤ) (hpass : ¬ r * 100 > (step.probability : ℚ))
    (hc : step.condition ≠ "1/1") (hparse : parseCondition step.condition = (k, n)) :
    ∀ t : ℕ, cGet (attempts_counters r step key t) (key ++ "_" ++ step.condition) = (t : ℤ) % n := by
  intro t
  induction t with
  | zero => simp [attempts_counters, cGet]
  | succ t ih =>
    show cGet (should_trigger r step key (attempts_counters r step key t)).snd _ = _
    rw [should_trigger_of_cond r step key _ hpass hc, hparse]
    rw [cGet_cSet_self, ih, Int.emod_add_emod]
    push_cast
    ring_nf

lemma attempt_fires_formula (r : ℚ) (step : PhraseStep) (key : String)
    (k n : ℤ) (hpass : ¬ r * 100 > (step.probability : ℚ))
    (hc : step.condition ≠ "1/1") (hparse : parseCondition step.condition = (k, n)) :
    ∀ t : ℕ, attempt_fires r step key t = decide ((((t : ℤ) + 1) % n) = k - 1) := by
  intro t
  unfold attempt_fires
  rw [should_trigger_of_cond r step key _ hpass hc, hparse]
  rw [attempts_counters_value r step key k n hpass hc hparse t]
  simp only [Int.emod_add_emod]

lemma attempt_fires_one (r : ℚ) (step : PhraseStep) (key : String)
    (hpass : ¬ r * 100 > (step.probability : ℚ)) (hc : step.condition = "1/1") :
    ∀ t : ℕ, attempt_fires r step key t = true := by
  intro t
  unfold attempt_fires
  rw [should_trigger_of_one r step key _ hpass hc]

/-! Helper lemmas about what the channel loop leaves untouched: the
per-tick channel processing only writes cursors, notes and counters. -/

/-- The control fields of the state that process_channel never writes. -/
def SameCtl (a b : TrackerState) : Prop :=
  b.bar_tick = a.bar_tick ∧ b.playing = a.playing ∧ b.play_mode = a.play_mode ∧
  b.pending_stop = a.pending_stop ∧ b.stop_playback = a.stop_playback ∧
  b.next_row = a.next_row ∧ b.current_row = a.current_row ∧ b.tempo = a.tempo ∧
  b.phrases = a.phrases ∧ b.arrangement = a.arrangement

lemma sameCtl_refl (a : TrackerState) : SameCtl a a :=
  ⟨rfl, rfl, rfl, rfl, rfl, rfl, rfl, rfl, rfl, rfl⟩

lemma sameCtl_trans (a b c : TrackerState) (h1 : SameCtl a b) (h2 : SameCtl b c) :
    SameCtl a c := by
  unfold SameCtl at h1 h2 ⊢
  obtain ⟨e1, e2, e3, e4, e5, e6, e7, e8, e9, e10⟩ := h1
  obtain ⟨f1, f2, f3, f4, f5, f6, f7, f8, f9, f10⟩ := h2
  exact ⟨f1.trans e1, f2.trans e2, f3.trans e3, f4.trans e4, f5.trans e5,
    f6.trans e6, f7.trans e7, f8.trans e8, f9.trans e9, f10.trans e10⟩

lemma process_channel_ctl (d : ℚ) (st : TrackerState) (ch : ℕ) :
    SameCtl st (process_channel d st ch) := by
  unfold process_channel
  cases h : st.arrangement st.current_row ch with
  | none => exact sameCtl_refl st
  | some pn => exact ⟨rfl, rfl, rfl, rfl, rfl, rfl, rfl, rfl, rfl, rfl⟩

lemma foldl_channels_ctl (draws : ℕ → ℚ) (l : List ℕ) :
    ∀ st : TrackerState,
      SameCtl st (l.foldl (fun s ch => process_channel (draws ch) s ch) st) := by
  induction l with
  | nil => intro st; exact sameCtl_refl st
  | cons ch rest ih =>
    intro st
    exact sameCtl_trans st (process_channel (draws ch) st ch) _
      (process_channel_ctl (draws ch) st ch) (ih _)

lemma run_channels_ctl (draws : ℕ → ℚ) (st : TrackerState) :
    SameCtl st (run_channels draws st) :=
  foldl_channels_ctl draws (List.range 8) st

/-! Helper lemmas unfolding one loop iteration. -/

lemma loop_body_not_boundary (draws : ℕ → ℚ) (c : LoopCtx)
    (h : c.st.bar_tick + 1 < c.max_length) :
    loop_body draws c =
      ({ c with st := { run_channels draws c.st with bar_tick := c.st.bar_tick + 1 } },
       false) := by
  have hb := (run_channels_ctl draws c.st).1
  unfold loop_body
  rw [hb, if_neg (by omega)]

lemma loop_body_boundary (draws : ℕ → ℚ) (c : LoopCtx)
    (h : c.max_length ≤ c.st.bar_tick + 1) :
    loop_body draws c =
      boundary_resolve c
        { run_channels draws c.st with
          bar_tick := 0, current_steps := List.replicate 8 0 } := by
  have hb := (run_channels_ctl draws c.st).1
  unfold loop_body
  rw [hb, if_pos (by omega)]

lemma boundary_resolve_stop (c : LoopCtx) (st : TrackerState)
    (hps : st.pending_stop = true) (hpm : st.play_mode = "pattern") :
    boundary_resolve c st =
      ({ c with st := { st with playing := false, pending_stop := false } }, true) := by
  unfold boundary_resolve
  rw [if_pos (by simp [hps, hpm])]

lemma songAdvance_fields (st : TrackerState) :
    (songAdvance st).bar_tick = st.bar_tick ∧
    (songAdvance st).current_steps = st.current_steps := by
  unfold songAdvance
  split
  · exact ⟨rfl, rfl⟩
  · exact ⟨rfl, rfl⟩

lemma boundary_resolve_shape (c : LoopCtx) (st : TrackerState) :
    (boundary_resolve c st).fst.st.bar_tick = st.bar_tick ∧
    (boundary_resolve c st).fst.st.current_steps = st.current_steps ∧
    (boundary_resolve c st).fst.step_time = c.step_time ∧
    (boundary_resolve c st).snd = (st.pending_stop && (st.play_mode == "pattern")) := by
  unfold boundary_resolve
  split
  · next h => exact ⟨rfl, rfl, rfl, h.symm⟩
  · next h =>
    rw [Bool.not_eq_true] at h
    split
    · exact ⟨rfl, rfl, rfl, h.symm⟩
    · split
      · exact ⟨(songAdvance_fields st).1, (songAdvance_fields st).2, rfl, h.symm⟩
      · exact ⟨rfl, rfl, rfl, h.symm⟩

lemma tick_once_guard (draws : ℕ → ℚ) (c : LoopCtx) (h : c.st.stop_playback = true) :
    tick_once draws c =
      ({ c with st := { c.st with playing := false } }, TickResult.exited) := by
  unfold tick_once
  rw [if_pos h]

lemma loop_body_step_time (draws : ℕ → ℚ) (c : LoopCtx) :
    (loop_body draws c).fst.step_time = c.step_time := by
  by_cases h : c.max_length ≤ c.st.bar_tick + 1
  · rw [loop_body_boundary draws c h]
    exact (boundary_resolve_shape c _).2.2.1
  · rw [loop_body_not_boundary draws c (by omega)]

lemma tick_once_step_time (draws : ℕ → ℚ) (c : LoopCtx) :
    (tick_once draws c).fst.step_time = c.step_time := by
  unfold tick_once
  by_cases h : c.st.stop_playback = true
  · rw [if_pos h]
  · rw [if_neg h]
    by_cases hb : (loop_body draws c).snd = true
    · simp only [hb, if_true]
      exact loop_body_step_time draws c
    · rw [Bool.not_eq_true] at hb
      simp only [hb, Bool.false_eq_true, if_false]
      exact loop_body_step_time draws c

lemma tick_n_step_time (draws : ℕ → ℚ) :
    ∀ (n : ℕ) (c : LoopCtx), (tick_n draws n c).step_time = c.step_time := by
  intro n
  induction n with
  | zero => intro c; rfl
  | succ n ih =>
    intro c
    show (tick_n draws n (tick_once draws c).fst).step_time = c.step_time
    rw [ih _, tick_once_step_time]

/-! Helper lemmas about phrase growth. -/

lemma tile_length (fp : List PhraseStep) (k : ℕ) :
    (tile k fp).length = k * fp.length := by
  induction k with
  | zero => simp [tile]
  | succ k ih =>
    show (fp ++ tile k fp).length = (k + 1) * fp.length
    rw [List.length_append, ih]
    ring

lemma growAux_exact (fp : List PhraseStep) (hfp : fp.length = 16) :
    ∀ (k fuel : ℕ) (steps : List PhraseStep) (target : ℕ),
      target = steps.length + 16 * k → k ≤ fuel →
      growAux fuel fp target steps = steps ++ tile k fp := by
  intro k
  induction k with
  | zero =>
    intro fuel steps target ht _
    cases fuel with
    | zero => simp [growAux, tile]
    | succ f =>
      unfold growAux
      rw [if_neg (by omega)]
      simp [tile]
  | succ k ih =>
    intro fuel steps target ht hf
    cases fuel with
    | zero => omega
    | succ f =>
      unfold growAux
      rw [if_pos (by omega)]
      rw [ih f (steps ++ fp) target (by rw [List.length_append, hfp]; omega) (by omega)]
      show steps ++ fp ++ tile k fp = steps ++ (fp ++ tile k fp)
      rw [List.append_assoc]

/-! Claim theorems. -/

/-- C1 counterexample: with condition "2/4" (and a passing probability
draw on every attempt, starting from empty counters) the FIRST attempt
fires and the second does not, so the claimed fire positions 2, 6, 10, …
are wrong: the code fires on attempts 1, 5, 9, …. -/
theorem c1_counterexample :
    attempt_fires 0 step24 "0_0_0" 0 = true ∧
    attempt_fires 0 step24 "0_0_0" 1 = false := by
  have hpass : ¬ (0 : ℚ) * 100 > (step24.probability : ℚ) := by
    show ¬ (0 : ℚ) * 100 > ((100 : ℤ) : ℚ)
    norm_num
  have h := attempt_fires_formula 0 step24 "0_0_0" 2 4 hpass (by decide) (by decide)
  constructor
  · rw [h 0]
    decide
  · rw [h 1]
    decide

/-- C1 (amended): for a step whose condition parses as k/n and whose
probability gate passes, should_trigger keeps the rotating counter for
the key equal to (attempts so far) mod n, and the t-th 1-based attempt
fires iff t mod n = k - 1; so "2/4" fires on attempts 1, 5, 9, …
(not 2, 6, 10, …) and "1/1" fires on every attempt that passes the
probability gate. -/
theorem c1_condition_firing :
    (∀ (r : ℚ) (step : PhraseStep) (key : String),
        ¬ r * 100 > (step.probability : ℚ) → step.condition = "1/1" →
        ∀ t : ℕ, attempt_fires r step key t = true) ∧
    (∀ (r : ℚ) (step : PhraseStep) (key : String) (k n : ℤ),
        ¬ r * 100 > (step.probability : ℚ) → step.condition ≠ "1/1" →
        parseCondition step.condition = (k, n) →
        (∀ t : ℕ,
          cGet (attempts_counters r step key t) (key ++ "_" ++ step.condition) =
            (t : ℤ) % n) ∧
        (∀ t : ℕ,
          attempt_fires r step key t = decide ((((t : ℤ) + 1) % n) = k - 1))) ∧
    (attempt_fires 0 step24 "0_0_0" 0 = true ∧
     attempt_fires 0 step24 "0_0_0" 4 = true ∧
     attempt_fires 0 step24 "0_0_0" 8 = true ∧
     attempt_fires 0 step24 "0_0_0" 1 = false ∧
     attempt_fires 0 step24 "0_0_0" 2 = false ∧
     attempt_fires 0 step24 "0_0_0" 3 = false) := by
  refine ⟨?_, ?_, ?_⟩
  · intro r step key hpass hc t
    exact attempt_fires_one r step key hpass hc t
  · intro r step key k n hpass hc hparse
    exact ⟨attempts_counters_value r step key k n hpass hc hparse,
           attempt_fires_formula r step key k n hpass hc hparse⟩
  · have hpass : ¬ (0 : ℚ) * 100 > (step24.probability : ℚ) := by
      show ¬ (0 : ℚ) * 100 > ((100 : ℤ) : ℚ)
      norm_num
    have h := attempt_fires_formula 0 step24 "0_0_0" 2 4 hpass (by decide) (by decide)
    refine ⟨?_, ?_, ?_, ?_, ?_, ?_⟩ <;> rw [h] <;> decide

/-- C1 witness: the amended theorem applied at concrete inputs — an
unconditional step with a passing draw of 1/2 fires on the 6th attempt,
and the rotating counter of the "2/4" step after 5 attempts is 5 mod 4. -/
theorem c1_condition_firing_witness :
    attempt_fires (1/2) defaultStep "0_0_0" 5 = true ∧
    cGet (attempts_counters 0 step24 "0_0_0" 5) ("0_0_0" ++ "_" ++ step24.condition) =
      (5 : ℤ) % 4 :=
  ⟨c1_condition_firing.1 (1/2) defaultStep "0_0_0"
      (by show ¬ (1/2 : ℚ) * 100 > ((100 : ℤ) : ℚ); norm_num) rfl 5,
   (c1_condition_firing.2.1 0 step24 "0_0_0" 2 4
      (by show ¬ (0 : ℚ) * 100 > ((100 : ℤ) : ℚ); norm_num)
      (by decide) (by decide)).1 5⟩

/-- C9 counterexample: the probability gate uses a strict comparison
(draw > probability returns false), so with the possible draw 0 a step of
probability 0 DOES fire — the claim that probability 0 never fires for
every possible draw is false. -/
theorem c9_counterexample :
    should_trigger 0
      { note := some 60, velocity := 100, probability := 0, condition := "1/1" }
      "0_0_0" [] = (true, []) := by
  apply should_trigger_of_one
  · show ¬ (0 : ℚ) * 100 > ((0 : ℤ) : ℚ)
    norm_num
  · rfl

/-- C9 (amended): the gate returns false exactly when the scaled draw is
STRICTLY greater than the probability; hence probability 100 always
passes (and fires under condition "1/1"), while probability 0 fires iff
the draw is exactly 0 — not never. -/
theorem c9_probability_gate :
    (∀ (r : ℚ) (step : PhraseStep) (key : String) (cs : Counters),
        r * 100 > (step.probability : ℚ) →
        should_trigger r step key cs = (false, cs)) ∧
    (∀ (r : ℚ) (step : PhraseStep) (key : String) (cs : Counters),
        0 ≤ r → r < 1 → step.probability = 100 → step.condition = "1/1" →
        (should_trigger r step key cs).fst = true) ∧
    (∀ (r : ℚ) (step : PhraseStep) (key : String) (cs : Counters),
        0 ≤ r → step.probability = 0 → step.condition = "1/1" →
        ((should_trigger r step key cs).fst = true ↔ r = 0)) := by
  refine ⟨?_, ?_, ?_⟩
  · intro r step key cs h
    exact should_trigger_of_gate r step key cs h
  · intro r step key cs h0 h1 hp hc
    have hpass : ¬ r * 100 > (step.probability : ℚ) := by
      rw [hp]
      push_cast
      nlinarith
    rw [should_trigger_of_one r step key cs hpass hc]
  · intro r step key cs h0 hp hc
    constructor
    · intro hfire
      by_contra hne
      have hr : 0 < r := lt_of_le_of_ne h0 (fun e => hne e.symm)
      have hgate : r * 100 > (step.probability : ℚ) := by
        rw [hp]
        push_cast
        nlinarith
      rw [should_trigger_of_gate r step key cs hgate] at hfire
      simp at hfire
    · intro hr
      subst hr
      have hpass : ¬ (0 : ℚ) * 100 > (step.probability : ℚ) := by
        rw [hp]
        push_cast
        norm_num
      rw [should_trigger_of_one 0 step key cs hpass hc]

/-- C9 witness: the amended theorem applied at concrete inputs — a draw
of 2 fails any probability, a draw of 1/2 passes probability 100, and
probability 0 with draw 0 fires. -/
theorem c9_probability_gate_witness :
    should_trigger 2 defaultStep "0_0_0" [] = (false, []) ∧
    (should_trigger (1/2) defaultStep "0_0_0" []).fst = true ∧
    ((should_trigger 0 { defaultStep with probability := 0 } "0_0_0" []).fst = true ↔
      (0 : ℚ) = 0) :=
  ⟨c9_probability_gate.1 2 defaultStep "0_0_0" []
      (by show (2 : ℚ) * 100 > ((100 : ℤ) : ℚ); norm_num),
   c9_probability_gate.2.1 (1/2) defaultStep "0_0_0" [] (by norm_num) (by norm_num) rfl rfl,
   c9_probability_gate.2.2 0 { defaultStep with probability := 0 } "0_0_0" [] le_rfl rfl rfl⟩

/-- C10: a failed probability draw or a "1/1" condition leaves the
counter table untouched; on the counting path exactly the entry keyed by
step key and condition string is set (to old value + 1 mod n) and every
other key keeps its value. -/
theorem c10_counters_frame :
    (∀ (r : ℚ) (step : PhraseStep) (key : String) (cs : Counters),
        r * 100 > (step.probability : ℚ) → (should_trigger r step key cs).snd = cs) ∧
    (∀ (r : ℚ) (step : PhraseStep) (key : String) (cs : Counters),
        step.condition = "1/1" → (should_trigger r step key cs).snd = cs) ∧
    (∀ (r : ℚ) (step : PhraseStep) (key : String) (cs : Counters),
        ¬ r * 100 > (step.probability : ℚ) → step.condition ≠ "1/1" →
        (should_trigger r step key cs).snd =
          cSet cs (key ++ "_" ++ step.condition)
            ((cGet cs (key ++ "_" ++ step.condition) + 1) %
              (parseCondition step.condition).snd) ∧
        cGet (should_trigger r step key cs).snd (key ++ "_" ++ step.condition) =
          (cGet cs (key ++ "_" ++ step.condition) + 1) %
            (parseCondition step.condition).snd ∧
        (∀ k2 : String, k2 ≠ key ++ "_" ++ step.condition →
            cGet (should_trigger r step key cs).snd k2 = cGet cs k2)) := by
  refine ⟨?_, ?_, ?_⟩
  · intro r step key cs h
    rw [should_trigger_of_gate r step key cs h]
  · intro r step key cs hc
    by_cases h : r * 100 > (step.probability : ℚ)
    · rw [should_trigger_of_gate r step key cs h]
    · rw [should_trigger_of_one r step key cs h hc]
  · intro r step key cs hpass hc
    rw [should_trigger_of_cond r step key cs hpass hc]
    refine ⟨rfl, ?_, ?_⟩
    · exact cGet_cSet_self cs _ _
    · intro k2 hk
      exact cGet_cSet_ne cs _ k2 _ hk

/-- C10 witness: the frame theorem applied at concrete inputs — a failed
draw and a "1/1" step leave a nonempty table unchanged, and the counting
path of a "2/4" step leaves an unrelated key unchanged. -/
theorem c10_counters_frame_witness :
    (should_trigger 2 defaultStep "0_0_0" [("a", 3)]).snd = [("a", 3)] ∧
    (should_trigger 0 defaultStep "0_0_0" [("a", 3)]).snd = [("a", 3)] ∧
    cGet (should_trigger 0 step24 "0_0_0" [("a", 3)]).snd "a" = cGet [("a", 3)] "a" :=
  ⟨c10_counters_frame.1 2 defaultStep "0_0_0" [("a", 3)]
      (by show (2 : ℚ) * 100 > ((100 : ℤ) : ℚ); norm_num),
   c10_counters_frame.2.1 0 defaultStep "0_0_0" [("a", 3)] rfl,
   (c10_counters_frame.2.2 0 step24 "0_0_0" [("a", 3)]
      (by show ¬ (0 : ℚ) * 100 > ((100 : ℤ) : ℚ); norm_num) (by decide)).2.2 "a"
      (by decide)⟩

/-- C2: a stop request in pattern mode only sets pending_stop (the loop
guard flag stays clear), a stop request in song mode clears playing and
sets the loop guard flag; a tick with the guard flag set exits at once;
mid-bar the loop keeps ticking even with pending_stop set; at the bar
boundary with pending_stop in pattern mode the loop exits exactly there,
having consumed pending_stop and cleared playing. -/
theorem c2_stop_request_semantics :
    (∀ st : TrackerState, st.play_mode = "pattern" →
        stop_playback_func st = { st with pending_stop := true }) ∧
    (∀ st : TrackerState, st.play_mode = "song" →
        stop_playback_func st = { st with playing := false, stop_playback := true }) ∧
    (∀ (draws : ℕ → ℚ) (c : LoopCtx), c.st.stop_playback = true →
        (tick_once draws c).snd = TickResult.exited ∧
        (tick_once draws c).fst.st.playing = false) ∧
    (∀ (draws : ℕ → ℚ) (c : LoopCtx), c.st.stop_playback = false →
        c.st.bar_tick + 1 < c.max_length →
        (tick_once draws c).snd = TickResult.cont) ∧
    (∀ (draws : ℕ → ℚ) (c : LoopCtx), c.st.stop_playback = false →
        c.st.pending_stop = true → c.st.play_mode = "pattern" →
        c.max_length ≤ c.st.bar_tick + 1 →
        (tick_once draws c).snd = TickResult.exited ∧
        (tick_once draws c).fst.st.playing = false ∧
        (tick_once draws c).fst.st.pending_stop = false ∧
        (tick_once draws c).fst.st.bar_tick = 0) := by
  refine ⟨?_, ?_, ?_, ?_, ?_⟩
  · intro st h
    unfold stop_playback_func
    rw [if_pos (by simp [h])]
  · intro st h
    unfold stop_playback_func
    rw [if_neg (by simp [h])]
  · intro draws c h
    rw [tick_once_guard draws c h]
    exact ⟨rfl, rfl⟩
  · intro draws c h1 h2
    unfold tick_once
    rw [if_neg (by simp [h1]), loop_body_not_boundary draws c h2]
    simp
  · intro draws c h1 h2 h3 h4
    have hps :
        ({ run_channels draws c.st with
           bar_tick := 0, current_steps := List.replicate 8 0 } : TrackerState).pending_stop
          = true := by
      show (run_channels draws c.st).pending_stop = true
      rw [(run_channels_ctl draws c.st).2.2.2.1, h2]
    have hpm :
        ({ run_channels draws c.st with
           bar_tick := 0, current_steps := List.replicate 8 0 } : TrackerState).play_mode
          = "pattern" := by
      show (run_channels draws c.st).play_mode = "pattern"
      rw [(run_channels_ctl draws c.st).2.2.1, h3]
    unfold tick_once
    rw [if_neg (by simp [h1]), loop_body_boundary draws c h4,
        boundary_resolve_stop c _ hps hpm]
    exact ⟨rfl, rfl, rfl, rfl⟩

/-- C2 witness: the stop semantics applied at concrete states — a
pattern-mode stop request on a playing state, an immediate exit when the
guard flag is set, a mid-bar tick that continues under pending_stop, and
a boundary tick that consumes a pattern-mode pending stop. -/
theorem c2_stop_request_semantics_witness :
    stop_playback_func { initState with playing := true } =
      { { initState with playing := true } with pending_stop := true } ∧
    stop_playback_func { initState with playing := true, play_mode := "song" } =
      { { initState with playing := true, play_mode := "song" } with
        playing := false, stop_playback := true } ∧
    (tick_once zeroDraws
        { st := { initState with stop_playback := true }, max_length := 16, step_time := 0 }).snd
      = TickResult.exited ∧
    (tick_once zeroDraws
        { st := { initState with playing := true, pending_stop := true },
          max_length := 16, step_time := 0 }).snd = TickResult.cont ∧
    (tick_once zeroDraws
        { st := { initState with playing := true, pending_stop := true, bar_tick := 15 },
          max_length := 16, step_time := 0 }).snd = TickResult.exited :=
  ⟨c2_stop_request_semantics.1 { initState with playing := true } rfl,
   c2_stop_request_semantics.2.1 { initState with playing := true, play_mode := "song" } rfl,
   (c2_stop_request_semantics.2.2.1 zeroDraws
      { st := { initState with stop_playback := true }, max_length := 16, step_time := 0 }
      rfl).1,
   c2_stop_request_semantics.2.2.2.1 zeroDraws
      { st := { initState with playing := true, pending_stop := true },
        max_length := 16, step_time := 0 } rfl (by decide),
   (c2_stop_request_semantics.2.2.2.2 zeroDraws
      { st := { initState with playing := true, pending_stop := true, bar_tick := 15 },
        max_length := 16, step_time := 0 } rfl rfl rfl (by decide)).1⟩

/-- C3 counterexample: toggling the mode while playing in pattern mode
mid-bar does NOT stop the clock loop immediately — the loop-exit flag is
left clear and the very next tick still runs (returns cont), so the
claimed immediate stop-and-wait regardless of mode is false for pattern
mode. -/
theorem c3_counterexample :
    (toggle_play_mode c3State).stop_playback = false ∧
    (tick_once zeroDraws
        { st := toggle_play_mode c3State, max_length := 16, step_time := 0 }).snd
      = TickResult.cont := by
  constructor
  · decide
  · decide

/-- C3 (amended): toggle_play_mode flips the mode, forces playing false,
clears pending_stop and next_row, and sets the loop-exit flag only when
it was already set or the state was playing in a non-pattern (song) mode;
in pattern mode the loop is never signalled to exit, so the stop is
immediate only in song mode and playback never auto-resumes. -/
theorem c3_toggle_mode_behavior (st : TrackerState) :
    toggle_play_mode st =
      { st with
        play_mode := if st.play_mode == "pattern" then "song" else "pattern"
        playing := false
        pending_stop := false
        next_row := none
        stop_playback :=
          st.stop_playback || (st.playing && !(st.play_mode == "pattern")) } := by
  unfold toggle_play_mode stop_playback_func
  cases hp : st.playing with
  | false => simp
  | true =>
    cases hm : st.play_mode == "pattern" with
    | true => simp [hm]
    | false => simp [hm]

/-- C4 counterexample: with the only phrase of the active row resized
from 16 to 64 steps mid-bar, the currently assigned maximum length is
64 but the loop still uses its cached bar length 16: the bar boundary is
taken at tick 16 (bar_tick resets to 0), contradicting the claim that
every boundary check uses the currently assigned maximum (which would
leave bar_tick = 16 there). -/
theorem c4_counterexample :
    get_max_phrase_length c4Ctx2.st c4Ctx2.st.current_row = 64 ∧
    c4Ctx2.max_length = 16 ∧
    (tick_n zeroDraws 16 c4Ctx2).st.bar_tick = 0 := by
  refine ⟨by decide, by decide, ?_⟩
  decide

/-- C4 (amended): the bar length is the maximum phrase length of the
active row as cached when the loop entered the row (start_loop computes
it from the current assignment); when bar_tick reaches it, bar_tick and
all eight cursors are reset to 0 before any pending transition is
resolved, and below it nothing is reset or resolved; in the 16/64 mixing
scenario the 16-step channel wraps to 0 at ticks 16, 32 and 48 of the
64-tick bar, looping 4 times per bar. -/
theorem c4_bar_boundary_behavior :
    (∀ st : TrackerState,
        (start_loop st).max_length = get_max_phrase_length st st.current_row) ∧
    (∀ (draws : ℕ → ℚ) (c : LoopCtx), c.max_length ≤ c.st.bar_tick + 1 →
        (loop_body draws c).fst.st.bar_tick = 0 ∧
        (loop_body draws c).fst.st.current_steps = List.replicate 8 0 ∧
        (loop_body draws c).snd = (c.st.pending_stop && (c.st.play_mode == "pattern"))) ∧
    (∀ (draws : ℕ → ℚ) (c : LoopCtx), c.st.bar_tick + 1 < c.max_length →
        (loop_body draws c).fst.st.bar_tick = c.st.bar_tick + 1 ∧
        (loop_body draws c).fst.st.current_row = c.st.current_row ∧
        (loop_body draws c).fst.max_length = c.max_length ∧
        (loop_body draws c).snd = false) ∧
    (mixCtx.max_length = 64 ∧
     (tick_n zeroDraws 16 mixCtx).st.current_steps = [0, 16, 0, 0, 0, 0, 0, 0] ∧
     (tick_n zeroDraws 32 mixCtx).st.current_steps = [0, 32, 0, 0, 0, 0, 0, 0] ∧
     (tick_n zeroDraws 48 mixCtx).st.current_steps = [0, 48, 0, 0, 0, 0, 0, 0] ∧
     (tick_n zeroDraws 64 mixCtx).st.bar_tick = 0 ∧
     (tick_n zeroDraws 64 mixCtx).st.current_steps = List.replicate 8 0) := by
  refine ⟨?_, ?_, ?_, ?_⟩
  · intro st
    rfl
  · intro draws c h
    rw [loop_body_boundary draws c h]
    have hs := boundary_resolve_shape c
      { run_channels draws c.st with bar_tick := 0, current_steps := List.replicate 8 0 }
    refine ⟨hs.1, hs.2.1, ?_⟩
    rw [hs.2.2.2]
    show ((run_channels draws c.st).pending_stop &&
        ((run_channels draws c.st).play_mode == "pattern")) = _
    rw [(run_channels_ctl draws c.st).2.2.2.1, (run_channels_ctl draws c.st).2.2.1]
  · intro draws c h
    rw [loop_body_not_boundary draws c h]
    exact ⟨rfl, (run_channels_ctl draws c.st).2.2.2.2.2.2.1, rfl, rfl⟩
  · refine ⟨by decide, ?_, ?_, ?_, ?_, ?_⟩ <;> decide

/-- C4 witness: the boundary behavior applied at concrete contexts — a
boundary tick resets bar_tick and the cursors, a mid-bar tick neither
resets nor resolves. -/
theorem c4_bar_boundary_behavior_witness :
    (loop_body zeroDraws
        { st := { initState with playing := true, bar_tick := 15 },
          max_length := 16, step_time := 0 }).fst.st.current_steps = List.replicate 8 0 ∧
    (loop_body zeroDraws
        { st := { initState with playing := true, bar_tick := 3 },
          max_length := 16, step_time := 0 }).fst.st.bar_tick = 3 + 1 :=
  ⟨(c4_bar_boundary_behavior.2.1 zeroDraws
      { st := { initState with playing := true, bar_tick := 15 },
        max_length := 16, step_time := 0 } (by decide)).2.1,
   (c4_bar_boundary_behavior.2.2.1 zeroDraws
      { st := { initState with playing := true, bar_tick := 3 },
        max_length := 16, step_time := 0 } (by decide)).1⟩

/-- C5 counterexample: with playback started at tempo 120 the loop's
step interval is 1/8 s; after the foreground sets the tempo to 240 the
next tick still uses 1/8 s, not 60/(240*4) = 1/16 s — a tempo change
does not take effect on the loop's step interval, which is computed only
once at loop start. -/
theorem c5_counterexample :
    c5Ctx2.st.tempo = 240 ∧
    (tick_once zeroDraws c5Ctx2).fst.step_time = 1/8 ∧
    (1/8 : ℚ) ≠ 60 / ((240 : ℚ) * 4) := by
  refine ⟨by decide, ?_, by norm_num⟩
  rw [tick_once_step_time]
  show 60 / ((120 : ℤ) : ℚ) / 4 = 1/8
  push_cast
  norm_num

/-- C5 (amended): the tempo is an integer clamped to [40, 300] and
settable at any time; the clock loop computes its step interval once at
loop start as 60/(T*4) seconds from the tempo current at that moment and
never recomputes it during the loop. -/
theorem c5_tempo_clamp_and_interval :
    (∀ n : ℤ, 40 ≤ clamp_tempo n ∧ clamp_tempo n ≤ 300) ∧
    (∀ (st : TrackerState) (n : ℤ), (set_tempo st n).tempo = clamp_tempo n) ∧
    (∀ st : TrackerState, (start_loop st).step_time = 60 / ((st.tempo : ℚ) * 4)) ∧
    (∀ (draws : ℕ → ℚ) (n : ℕ) (c : LoopCtx),
        (tick_n draws n c).step_time = c.step_time) := by
  refine ⟨?_, ?_, ?_, ?_⟩
  · intro n
    unfold clamp_tempo
    constructor
    · exact le_max_left _ _
    · exact max_le (by norm_num) (min_le_left _ _)
  · intro st n
    rfl
  · intro st
    show 60 / (st.tempo : ℚ) / 4 = 60 / ((st.tempo : ℚ) * 4)
    rw [div_div]
  · intro draws n c
    exact tick_n_step_time draws n c

/-- C6: the safety clamp of the scheduler replaces an out-of-range
cursor by cursor mod length before use and leaves an in-range cursor
unchanged, so for a phrase whose step list matches its (positive) length
the step read is always in bounds. -/
theorem c6_cursor_clamp_safe (p : Phrase) (cursor : ℕ)
    (h0 : 0 < p.length) (hlen : p.steps.length = p.length) :
    clampIndex cursor p.length < p.length ∧
    (p.steps.get? (clampIndex cursor p.length)).isSome = true ∧
    (p.length ≤ cursor → clampIndex cursor p.length = cursor % p.length) ∧
    (cursor < p.length → clampIndex cursor p.length = cursor) := by
  have hlt : clampIndex cursor p.length < p.length := by
    unfold clampIndex
    split
    · exact Nat.mod_lt _ h0
    · next h => omega
  refine ⟨hlt, ?_, ?_, ?_⟩
  · have hb : clampIndex cursor p.length < p.steps.length := by omega
    rw [List.get?_eq_getElem?]
    simp [hb]
  · intro h
    unfold clampIndex
    rw [if_pos h]
  · intro h
    unfold clampIndex
    rw [if_neg (by omega)]

/-- C6 witness: the clamp theorem applied to the default 16-step phrase
with a stale cursor of 20 (as after a shrink from 32): the index used is
20 mod 16 and the read is in bounds. -/
theorem c6_cursor_clamp_safe_witness :
    0 < defaultPhrase.length ∧
    defaultPhrase.steps.length = defaultPhrase.length ∧
    (clampIndex 20 defaultPhrase.length < defaultPhrase.length ∧
     (defaultPhrase.steps.get? (clampIndex 20 defaultPhrase.length)).isSome = true ∧
     (defaultPhrase.length ≤ 20 →
        clampIndex 20 defaultPhrase.length = 20 % defaultPhrase.length) ∧
     (20 < defaultPhrase.length → clampIndex 20 defaultPhrase.length = 20)) :=
  ⟨by decide, by decide, c6_cursor_clamp_safe defaultPhrase 20 (by decide) (by decide)⟩

/-- C7: for valid lengths, growing a phrase appends whole copies of its
first 16 steps (tiling page 1) until the target is reached — growing
16 to 32 duplicates the steps verbatim — shrinking truncates to the
first newLength steps, and after every resize the step list length
equals the length field. -/
theorem c7_resize_semantics (p : Phrase) (n : ℕ)
    (hsteps : p.steps.length = p.length)
    (hL : p.length = 16 ∨ p.length = 32 ∨ p.length = 48 ∨ p.length = 64)
    (hn : n = 16 ∨ n = 32 ∨ n = 48 ∨ n = 64) :
    (set_phrase_length p n).length = n ∧
    (set_phrase_length p n).steps.length = n ∧
    (p.length < n →
      (set_phrase_length p n).steps =
        p.steps ++ tile ((n - p.length) / 16) (p.steps.take 16)) ∧
    (n < p.length → (set_phrase_length p n).steps = p.steps.take n) ∧
    (p.length = 16 → n = 32 → (set_phrase_length p n).steps = p.steps ++ p.steps) := by
  have hdL : 16 ∣ p.length := by rcases hL with h|h|h|h <;> rw [h] <;> decide
  have h16L : 16 ≤ p.length := by rcases hL with h|h|h|h <;> omega
  have hdn : 16 ∣ n := by rcases hn with h|h|h|h <;> rw [h] <;> decide
  have hfp : (p.steps.take 16).length = 16 := by
    rw [List.length_take]
    omega
  have hgrow : p.length < n →
      (set_phrase_length p n).steps =
        p.steps ++ tile ((n - p.length) / 16) (p.steps.take 16) := by
    intro hlt
    unfold set_phrase_length
    rw [if_neg (by omega), if_pos (by omega)]
    exact growAux_exact _ hfp _ n p.steps n (by omega) (by omega)
  have hlength : (set_phrase_length p n).length = n := by
    unfold set_phrase_length
    rcases Nat.lt_trichotomy p.length n with hlt | heq | hgt
    · rw [if_neg (by omega), if_pos (by omega)]
    · rw [if_pos heq.symm]
      exact heq
    · rw [if_neg (by omega), if_neg (by omega)]
  have hlen2 : (set_phrase_length p n).steps.length = n := by
    rcases Nat.lt_trichotomy p.length n with hlt | heq | hgt
    · rw [hgrow hlt, List.length_append, tile_length, hfp, hsteps]
      omega
    · unfold set_phrase_length
      rw [if_pos heq.symm, hsteps, heq]
    · unfold set_phrase_length
      rw [if_neg (by omega), if_neg (by omega)]
      show (p.steps.take n).length = n
      rw [List.length_take]
      omega
  have hshrink : n < p.length → (set_phrase_length p n).steps = p.steps.take n := by
    intro h
    unfold set_phrase_length
    rw [if_neg (by omega), if_neg (by omega)]
  have h1632 : p.length = 16 → n = 32 →
      (set_phrase_length p n).steps = p.steps ++ p.steps := by
    intro h16 h32
    rw [hgrow (by omega)]
    have hk : (n - p.length) / 16 = 1 := by omega
    rw [hk]
    show p.steps ++ (p.steps.take 16 ++ tile 0 (p.steps.take 16)) = p.steps ++ p.steps
    rw [show tile 0 (p.steps.take 16) = [] from rfl, List.append_nil]
    have htake : p.steps.take 16 = p.steps := by
      apply List.take_of_length_le
      omega
    rw [htake]
  exact ⟨hlength, hlen2, hgrow, hshrink, h1632⟩

/-- C7 witness: the resize theorem applied to the default 16-step phrase
grown to 32: the result duplicates the original steps verbatim and the
step list length matches the length field. -/
theorem c7_resize_semantics_witness :
    defaultPhrase.steps.length = defaultPhrase.length ∧
    ((set_phrase_length defaultPhrase 32).length = 32 ∧
     (set_phrase_length defaultPhrase 32).steps.length = 32 ∧
     (defaultPhrase.length = 16 → 32 = 32 →
        (set_phrase_length defaultPhrase 32).steps =
          defaultPhrase.steps ++ defaultPhrase.steps)) :=
  ⟨by decide,
   (c7_resize_semantics defaultPhrase 32 (by decide) (Or.inl (by decide))
      (Or.inr (Or.inl rfl))).1,
   (c7_resize_semantics defaultPhrase 32 (by decide) (Or.inl (by decide))
      (Or.inr (Or.inl rfl))).2.1,
   fun h _ => (c7_resize_semantics defaultPhrase 32 (by decide) (Or.inl (by decide))
      (Or.inr (Or.inl rfl))).2.2.2.2 h rfl⟩

/-- C8 counterexample: _set_phrase_length performs no validation — a
resize of the default 16-step phrase to the invalid target 20 is NOT a
no-op: it sets the length field to 20 and leaves 32 steps, changing the
phrase. -/
theorem c8_counterexample :
    (set_phrase_length defaultPhrase 20).length = 20 ∧
    (set_phrase_length defaultPhrase 20).steps.length = 32 ∧
    set_phrase_length defaultPhrase 20 ≠ defaultPhrase := by
  refine ⟨by decide, by decide, by decide⟩

/-- C8 (amended): resizing to the current length is a no-op, but an
invalid target is not rejected: _set_phrase_length applies it like any
other (target 20 on a 16-step phrase tiles a whole 16-step block and
sets length to 20, leaving 32 steps and breaking the list-length
invariant); no exception path exists (the embedding is total), and
validity is only ensured by the callers, which pick adjacent entries of
the length options 16/32/48/64. -/
theorem c8_resize_validation :
    (∀ p : Phrase, set_phrase_length p p.length = p) ∧
    (set_phrase_length defaultPhrase 20).length = 20 ∧
    (set_phrase_length defaultPhrase 20).steps.length = 32 := by
  refine ⟨?_, by decide, by decide⟩
  intro p
  unfold set_phrase_length
  rw [if_pos rfl]

end Trkr
